import Mathlib

/-!
Verification of `multi_stop_route_cost.py`, a QGIS script that computes a
multi-stop route: it looks up a stops layer and a network layer by name in the
current project, checks that a configured order field exists on the stops
layer, stable-sorts the stop features by that field, issues one point-to-point
shortest-path request per consecutive pair of sorted stops, and finally merges
the resulting segments into one layer that is added to the project.

The embedding below is a shallow model of the script: coordinates and
attribute values are integers (no claim depends on floating-point arithmetic),
the external path engine is a parameter `engine : PathParams → Except Err σ`,
and the pipeline is a function returning both the list of path requests
actually issued (the trace) and the final outcome.  Python's `list.sort`
(a stable sort) is modelled by `List.insertionSort`, which is also stable;
stable sorts agree extensionally.  Exceptions are modelled by `Except Err`.
-/

namespace MultiStopRouteCost

/-- A point, `QgsPointXY` in the script (`geom.asPoint()`). -/
structure QgsPointXY where
  x : Int
  y : Int
deriving DecidableEq, Repr

/-- A feature of a vector layer: a list of attribute values, parallel to the
layer's field list, plus a point geometry. -/
structure QgsFeature where
  attrs : List Int
  geom : QgsPointXY
deriving DecidableEq, Repr

/-- A vector layer: its name in the project, its schema (field names), its
features in read order, and its CRS authority id (`crs().authid()`). -/
structure QgsVectorLayer where
  name : String
  fields : List String
  feats : List QgsFeature
  crs : String
deriving DecidableEq, Repr

/-- The project registry consulted by `QgsProject.instance().mapLayersByName`. -/
abbrev QgsProject := List QgsVectorLayer

/-- The configuration surface of the script (lines 14-21): exactly three
names.  Note that neither the routing strategy nor the cost attribute is
part of it. -/
structure Config where
  network_layer_name : String
  stops_layer_name : String
  order_field_name : String
deriving DecidableEq, Repr

/-- Errors raised by the script or by the external path engine.  The script
raises plain Python exceptions with distinct messages; each raise site gets
its own constructor, named after the spec's taxonomy. -/
inductive Err where
  | layerNotFound (layerName : String)
  | configurationError (fieldName : String) (layerName : String)
  | insufficientStops
  | pathNotFound (details : String)
  | engineError (details : String)
deriving DecidableEq, Repr

instance {ε α : Type} [DecidableEq ε] [DecidableEq α] : DecidableEq (Except ε α) :=
  fun x y =>
    match x, y with
    | Except.ok a, Except.ok b => decidable_of_iff (a = b) (by simp)
    | Except.ok _, Except.error _ => isFalse nofun
    | Except.error _, Except.ok _ => isFalse nofun
    | Except.error e, Except.error f => decidable_of_iff (e = f) (by simp)

/-- Modelled from the spec: the routing strategy vocabulary
(`strategy ∈ \x7bShortest, Fastest\x7d`).  The script's own comment at line 95
documents the encoding `0 for Shortest, 1 for Fastest`. -/
inductive Strategy where
  | Shortest
  | Fastest
deriving DecidableEq, Repr

/-- The numeric encoding of a strategy, per the comment at line 95 of the
script: `0 for Shortest, 1 for Fastest`. -/
def strategyCode : Strategy → Nat
  | Strategy.Shortest => 0
  | Strategy.Fastest => 1

/-- `mapLayersByName`: all layers of the project whose name matches, in
registry order. -/
def mapLayersByName (project : QgsProject) (n : String) : List QgsVectorLayer :=
  project.filter (fun l => l.name = n)

/-- Lines 28-31 and 34-37 of the script: look a layer up by name, raise if
there is no match, and otherwise take element `[0]` of the match list. -/
def lookupLayer (project : QgsProject) (n : String) : Except Err QgsVectorLayer :=
  match mapLayersByName project n with
  | [] => Except.error (Err.layerNotFound n)
  | l :: _ => Except.ok l

/-- `fields().indexFromName(name)` (line 40): the index of the first field
with the given name, or `-1` when absent. -/
def indexFromNameAux (n : String) : List String → Int → Int
  | [], _ => -1
  | f :: rest, i => if f = n then i else indexFromNameAux n rest (i + 1)

/-- Index of a field name in a schema, `-1` when missing. -/
def indexFromName (fields : List String) (n : String) : Int :=
  indexFromNameAux n fields 0

/-- The sort key `lambda f: f[order_field_name]` (line 50): the feature's
attribute at the index of the order field in the layer's schema. -/
def sortKey (fields : List String) (orderField : String) (f : QgsFeature) : Int :=
  f.attrs.getD (indexFromName fields orderField).toNat 0

/-- Line 50: `stops_features.sort(key=lambda f: f[order_field_name])`.
Python's sort is stable; it is modelled by the (stable) insertion sort. -/
def sortedFeatures (sl : QgsVectorLayer) (orderField : String) : List QgsFeature :=
  List.insertionSort
    (fun a b => sortKey sl.fields orderField a ≤ sortKey sl.fields orderField b) sl.feats

/-- Lines 57-62: the coordinates of the sorted features, in sorted order. -/
def sortedCoords (sl : QgsVectorLayer) (orderField : String) : List QgsPointXY :=
  (sortedFeatures sl orderField).map QgsFeature.geom

/-- Line 87-88: the point string passed to the engine,
`f"\x7bx\x7d,\x7by\x7d [\x7bauthid\x7d]"`. -/
def pointStr (p : QgsPointXY) (authid : String) : String :=
  toString p.x ++ "," ++ toString p.y ++ " [" ++ authid ++ "]"

/-- The parameter dictionary passed to `qgis:shortestpathpointtopoint`
(lines 93-100). -/
structure PathParams where
  input : QgsVectorLayer
  strategy : Nat
  speedField : String
  startPoint : String
  endPoint : String
  output : String
deriving DecidableEq, Repr

/-- Lines 93-100: the concrete parameters built for one segment.  `STRATEGY`
is the literal `1` and `SPEED_FIELD` the literal `"cost"`. -/
def mkParams (net : QgsVectorLayer) (crs : String) (a b : QgsPointXY) : PathParams :=
  { input := net
    strategy := 1
    speedField := "cost"
    startPoint := pointStr a crs
    endPoint := pointStr b crs
    output := "memory:" }

/-- The requests the loop would issue for a coordinate list: one per
consecutive pair `(coords[i], coords[i+1])`. -/
def consecutiveRequests (net : QgsVectorLayer) (crs : String)
    (coords : List QgsPointXY) : List PathParams :=
  (coords.zip coords.tail).map (fun ab => mkParams net crs ab.1 ab.2)

/-- Lines 83-104: the planner loop.  For each consecutive pair it builds the
parameters, calls the engine (`processing.run`), and appends the result; an
engine exception aborts the loop.  The first component is the trace of
requests actually issued. -/
def planLoop (engine : PathParams → Except Err σ) (net : QgsVectorLayer)
    (crs : String) : List QgsPointXY → List PathParams × Except Err (List σ)
  | [] => ([], Except.ok [])
  | [_] => ([], Except.ok [])
  | a :: b :: rest =>
    match engine (mkParams net crs a b) with
    | Except.error e => ([mkParams net crs a b], Except.error e)
    | Except.ok seg =>
      match planLoop engine net crs (b :: rest) with
      | (reqs, Except.error e) => (mkParams net crs a b :: reqs, Except.error e)
      | (reqs, Except.ok segs) => (mkParams net crs a b :: reqs, Except.ok (seg :: segs))

/-- The merged artifact: the `LAYERS`, `CRS` and the name set at line 125. -/
structure MergedRoute (σ : Type) where
  layers : List σ
  crs : String
  name : String
deriving DecidableEq, Repr

/-- Lines 110-132: `if route_segments:` merge the segments (passing the list
verbatim as `LAYERS` and the network CRS), name the result and add it to the
project; otherwise only print a message — no exception, nothing published. -/
def mergeAndPublish (segs : List σ) (networkCrs : String) : Option (MergedRoute σ) :=
  match segs with
  | [] => none
  | _ => some { layers := segs, crs := networkCrs, name := "Multi-Stop Route (from Layer)" }

/-- The whole script, lines 28-132.  Returns the trace of issued path
requests together with the outcome: an error (an uncaught exception), or
`Except.ok` with the published layer (`none` when the empty-segments branch
only printed). -/
def runTrace (engine : PathParams → Except Err σ) (project : QgsProject)
    (cfg : Config) : List PathParams × Except Err (Option (MergedRoute σ)) :=
  match lookupLayer project cfg.stops_layer_name with
  | Except.error e => ([], Except.error e)
  | Except.ok stopsL =>
    match lookupLayer project cfg.network_layer_name with
    | Except.error e => ([], Except.error e)
    | Except.ok networkL =>
      if indexFromName stopsL.fields cfg.order_field_name = -1 then
        ([], Except.error (Err.configurationError cfg.order_field_name cfg.stops_layer_name))
      else
        if (sortedCoords stopsL cfg.order_field_name).length < 2 then
          ([], Except.error Err.insufficientStops)
        else
          ((planLoop engine networkL stopsL.crs (sortedCoords stopsL cfg.order_field_name)).1,
           match (planLoop engine networkL stopsL.crs (sortedCoords stopsL cfg.order_field_name)).2 with
           | Except.error e => Except.error e
           | Except.ok segs => Except.ok (mergeAndPublish segs networkL.crs))

/-- An engine that always finds a path, computing the segment with `f`. -/
def okEngine (f : PathParams → σ) : PathParams → Except Err σ :=
  fun p => Except.ok (f p)

/-! ### Basic lemmas about the planned request list -/

theorem consecutiveRequests_nil (net : QgsVectorLayer) (crs : String) :
    consecutiveRequests net crs [] = [] := rfl

theorem consecutiveRequests_single (net : QgsVectorLayer) (crs : String) (a : QgsPointXY) :
    consecutiveRequests net crs [a] = [] := rfl

theorem consecutiveRequests_cons₂ (net : QgsVectorLayer) (crs : String)
    (a b : QgsPointXY) (rest : List QgsPointXY) :
    consecutiveRequests net crs (a :: b :: rest)
      = mkParams net crs a b :: consecutiveRequests net crs (b :: rest) := rfl

theorem consecutiveRequests_length (net : QgsVectorLayer) (crs : String) :
    ∀ coords : List QgsPointXY,
      (consecutiveRequests net crs coords).length = coords.length - 1
  | [] => rfl
  | [_] => rfl
  | a :: b :: rest => by
    rw [consecutiveRequests_cons₂]
    simp only [List.length_cons]
    rw [consecutiveRequests_length net crs (b :: rest)]
    simp

theorem consecutiveRequests_map_start (net : QgsVectorLayer) (crs : String) :
    ∀ coords : List QgsPointXY,
      (consecutiveRequests net crs coords).map PathParams.startPoint
        = coords.dropLast.map (fun p => pointStr p crs)
  | [] => rfl
  | [_] => rfl
  | a :: b :: rest => by
    rw [consecutiveRequests_cons₂, List.map_cons,
      consecutiveRequests_map_start net crs (b :: rest)]
    rfl

theorem consecutiveRequests_map_end (net : QgsVectorLayer) (crs : String) :
    ∀ coords : List QgsPointXY,
      (consecutiveRequests net crs coords).map PathParams.endPoint
        = coords.tail.map (fun p => pointStr p crs)
  | [] => rfl
  | [_] => rfl
  | a :: b :: rest => by
    rw [consecutiveRequests_cons₂, List.map_cons,
      consecutiveRequests_map_end net crs (b :: rest)]
    rfl

/-- With an engine that always succeeds, the loop issues exactly the
consecutive-pair requests and collects their results in order. -/
theorem planLoop_okEngine (f : PathParams → σ) (net : QgsVectorLayer) (crs : String) :
    ∀ coords : List QgsPointXY,
      planLoop (okEngine f) net crs coords
        = (consecutiveRequests net crs coords,
           Except.ok ((consecutiveRequests net crs coords).map f))
  | [] => rfl
  | [_] => rfl
  | a :: b :: rest => by
    rw [consecutiveRequests_cons₂]
    simp only [planLoop, okEngine, planLoop_okEngine f net crs (b :: rest), List.map_cons]

/-! ### Stability of the loader's sort -/

/-- Filtering on a fixed key commutes with `orderedInsert` under the
key-comparison relation: if the inserted element has the key it comes first,
otherwise the filtered list is unchanged.  (No sortedness hypothesis is
needed: when the insertion walks past an element, that element's key is
strictly smaller than the inserted one's and so differs from it.) -/
theorem filter_orderedInsert_key (key : α → Int) (k : Int) (x : α) :
    ∀ l : List α,
      (List.orderedInsert (fun a b => key a ≤ key b) x l).filter
          (fun a => decide (key a = k))
        = if key x = k then
            x :: l.filter (fun a => decide (key a = k))
          else
            l.filter (fun a => decide (key a = k))
  | [] => by
    by_cases hx : key x = k <;> simp [List.orderedInsert, hx]
  | y :: l => by
    by_cases hr : key x ≤ key y
    · rw [List.orderedInsert, if_pos hr]
      by_cases hx : key x = k <;> simp [List.filter_cons, hx]
    · rw [List.orderedInsert, if_neg hr]
      have hy : key y < key x := lt_of_not_le hr
      rw [List.filter_cons, filter_orderedInsert_key key k x l]
      by_cases hx : key x = k
      · have hyk : ¬ key y = k := by
          intro h
          rw [h, hx] at hy
          exact lt_irrefl k hy
        simp [hx, hyk, List.filter_cons]
      · by_cases hyk : key y = k <;> simp [hx, hyk, List.filter_cons]

/-- Stability of the insertion sort, stated through filters: for every key
value, the elements carrying that key appear in the sorted list exactly as
they appeared in the input, in the same relative order. -/
theorem filter_insertionSort_key (key : α → Int) (k : Int) :
    ∀ l : List α,
      (List.insertionSort (fun a b => key a ≤ key b) l).filter
          (fun a => decide (key a = k))
        = l.filter (fun a => decide (key a = k))
  | [] => rfl
  | x :: l => by
    rw [List.insertionSort, filter_orderedInsert_key key k x,
      filter_insertionSort_key key k l, List.filter_cons]
    by_cases hx : key x = k <;> simp [hx]

/-! ### Fail-fast behaviour of the planner loop -/

/-- If the engine succeeds on the first `k` planned requests and fails on the
`k`-th one, the loop issues exactly the requests up to and including index `k`
and aborts with the engine's error. -/
theorem planLoop_fail (engine : PathParams → Except Err σ) (net : QgsVectorLayer)
    (crs : String) :
    ∀ (coords : List QgsPointXY) (k : Nat) (pk : PathParams) (e : Err),
      ((consecutiveRequests net crs coords).take k).all
          (fun p => (engine p).isOk) = true →
      (consecutiveRequests net crs coords)[k]? = some pk →
      engine pk = Except.error e →
      planLoop engine net crs coords
        = ((consecutiveRequests net crs coords).take (k + 1), Except.error e)
  | [], k, pk, e, _, hfail, _ => by
    simp [consecutiveRequests_nil] at hfail
  | [a], k, pk, e, _, hfail, _ => by
    simp [consecutiveRequests_single] at hfail
  | a :: b :: rest, 0, pk, e, hall, hfail, herr => by
    rw [consecutiveRequests_cons₂] at hfail ⊢
    simp only [List.getElem?_cons_zero, Option.some.injEq] at hfail
    subst hfail
    simp only [planLoop, herr, List.take_succ_cons, List.take_zero]
  | a :: b :: rest, j + 1, pk, e, hall, hfail, herr => by
    rw [consecutiveRequests_cons₂] at hall hfail ⊢
    rw [List.take_succ_cons, List.all_cons] at hall
    obtain ⟨h0, hrest⟩ := Bool.and_eq_true_iff.mp hall
    rw [List.getElem?_cons_succ] at hfail
    have hrec := planLoop_fail engine net crs (b :: rest) j pk e hrest hfail herr
    simp only [planLoop]
    cases hs : engine (mkParams net crs a b) with
    | error e2 => rw [hs] at h0; simp [Except.isOk, Except.toBool] at h0
    | ok seg =>
      rw [hrec]
      simp [List.take_succ_cons]

/-- The trace of issued requests is always a prefix of the planned
consecutive-pair requests. -/
theorem planLoop_fst_take (engine : PathParams → Except Err σ) (net : QgsVectorLayer)
    (crs : String) :
    ∀ coords : List QgsPointXY,
      ∃ n, (planLoop engine net crs coords).1
        = (consecutiveRequests net crs coords).take n
  | [] => ⟨0, rfl⟩
  | [_] => ⟨0, rfl⟩
  | a :: b :: rest => by
    rw [consecutiveRequests_cons₂]
    simp only [planLoop]
    cases hs : engine (mkParams net crs a b) with
    | error e => exact ⟨1, by simp [List.take_succ_cons]⟩
    | ok seg =>
      obtain ⟨n, hn⟩ := planLoop_fst_take engine net crs (b :: rest)
      refine ⟨n + 1, ?_⟩
      rw [List.take_succ_cons, ← hn]
      cases hpl : planLoop engine net crs (b :: rest) with
      | mk reqs res =>
        cases res with
        | error e => simp
        | ok segs => simp

/-- Every request in the planned list is built by `mkParams`. -/
theorem mem_consecutiveRequests (net : QgsVectorLayer) (crs : String)
    (coords : List QgsPointXY) (p : PathParams)
    (hp : p ∈ consecutiveRequests net crs coords) :
    ∃ a b, p = mkParams net crs a b := by
  unfold consecutiveRequests at hp
  obtain ⟨ab, _, rfl⟩ := List.mem_map.mp hp
  exact ⟨ab.1, ab.2, rfl⟩

/-- Every request the loop actually issues is built by `mkParams`. -/
theorem mem_planLoop_requests (engine : PathParams → Except Err σ)
    (net : QgsVectorLayer) (crs : String) (coords : List QgsPointXY)
    (p : PathParams) (hp : p ∈ (planLoop engine net crs coords).1) :
    ∃ a b, p = mkParams net crs a b := by
  obtain ⟨n, hn⟩ := planLoop_fst_take engine net crs coords
  rw [hn] at hp
  exact mem_consecutiveRequests net crs coords p (List.mem_of_mem_take hp)

/-! ### Reduction of the whole-script run -/

theorem sortedCoords_length (sl : QgsVectorLayer) (orderField : String) :
    (sortedCoords sl orderField).length = sl.feats.length := by
  unfold sortedCoords sortedFeatures
  rw [List.length_map, List.length_insertionSort]

/-- When both layers are found, the order field exists and there are at least
two stops, the run reduces to the planner loop followed by the merge step. -/
theorem runTrace_eq_planLoop (engine : PathParams → Except Err σ)
    (project : QgsProject) (cfg : Config) (sl nl : QgsVectorLayer)
    (hs : lookupLayer project cfg.stops_layer_name = Except.ok sl)
    (hn : lookupLayer project cfg.network_layer_name = Except.ok nl)
    (hf : ¬ indexFromName sl.fields cfg.order_field_name = -1)
    (h2 : 2 ≤ sl.feats.length) :
    runTrace engine project cfg
      = ((planLoop engine nl sl.crs (sortedCoords sl cfg.order_field_name)).1,
         match (planLoop engine nl sl.crs (sortedCoords sl cfg.order_field_name)).2 with
         | Except.error e => Except.error e
         | Except.ok segs => Except.ok (mergeAndPublish segs nl.crs)) := by
  have hlen : ¬ (sortedCoords sl cfg.order_field_name).length < 2 := by
    rw [sortedCoords_length]
    omega
  unfold runTrace
  rw [hs, hn]
  dsimp only
  rw [if_neg hf, if_neg hlen]

/-- Every request the whole run ever issues is built by `mkParams`. -/
theorem mem_runTrace_requests (engine : PathParams → Except Err σ)
    (project : QgsProject) (cfg : Config) (p : PathParams)
    (hp : p ∈ (runTrace engine project cfg).1) :
    ∃ net crs a b, p = mkParams net crs a b := by
  unfold runTrace at hp
  cases hsl : lookupLayer project cfg.stops_layer_name with
  | error e => simp only [hsl, List.not_mem_nil] at hp
  | ok sl =>
    simp only [hsl] at hp
    cases hnl : lookupLayer project cfg.network_layer_name with
    | error e => simp only [hnl, List.not_mem_nil] at hp
    | ok nl =>
      simp only [hnl] at hp
      by_cases hf : indexFromName sl.fields cfg.order_field_name = -1
      · rw [if_pos hf] at hp
        simp at hp
      · rw [if_neg hf] at hp
        by_cases hlen : (sortedCoords sl cfg.order_field_name).length < 2
        · rw [if_pos hlen] at hp
          simp at hp
        · rw [if_neg hlen] at hp
          simp only at hp
          obtain ⟨a, b, hab⟩ := mem_planLoop_requests engine nl sl.crs _ p hp
          exact ⟨nl, sl.crs, a, b, hab⟩

/-! ### Concrete fixtures

A small project mirroring the spec's worked scenario: three stops with order
keys 2, 1, 3 at positions (0,0), (10,0), (5,5), so the sorted order of
positions is (10,0), (0,0), (5,5). -/

def demoStops : QgsVectorLayer :=
  { name := "my_stops_points"
    fields := ["stop_label", "order_id"]
    feats := [ { attrs := [10, 2], geom := { x := 0, y := 0 } },
               { attrs := [20, 1], geom := { x := 10, y := 0 } },
               { attrs := [30, 3], geom := { x := 5, y := 5 } } ]
    crs := "EPSG:4326" }

def demoNetwork : QgsVectorLayer :=
  { name := "my_road_network"
    fields := ["cost"]
    feats := []
    crs := "EPSG:32633" }

def demoProject : QgsProject := [demoStops, demoNetwork]

def demoCfg : Config :=
  { network_layer_name := "my_road_network"
    stops_layer_name := "my_stops_points"
    order_field_name := "order_id" }

/-- The sorted stop positions of the demo project. -/
def demoCoords : List QgsPointXY :=
  [{ x := 10, y := 0 }, { x := 0, y := 0 }, { x := 5, y := 5 }]

/-- A demo engine that always finds a path; the segment is represented by the
request's start point string. -/
def demoEngineOk : PathParams → Except Err String :=
  okEngine PathParams.startPoint

/-- A demo engine that finds no path out of stop 2 (position (0,0), the
middle stop of the route): the second planned segment fails. -/
def demoFailEngine : PathParams → Except Err String := fun p =>
  if p.startPoint = pointStr { x := 0, y := 0 } "EPSG:4326" then
    Except.error (Err.pathNotFound "between stop 2 and stop 3")
  else
    Except.ok p.startPoint

/-- A second stops layer carrying the same project name as `demoStops` but a
different schema, for the name-collision scenario. -/
def demoStopsAlt : QgsVectorLayer :=
  { name := "my_stops_points"
    fields := ["other_field"]
    feats := [ { attrs := [1], geom := { x := 7, y := 7 } } ]
    crs := "EPSG:4326" }

/-- A project in which two layers share the stops layer name. -/
def demoDupProject : QgsProject := [demoStops, demoStopsAlt, demoNetwork]

/-- A stops layer whose schema lacks the configured order field. -/
def demoStopsNoField : QgsVectorLayer :=
  { name := "my_stops_points"
    fields := ["stop_label"]
    feats := [ { attrs := [10], geom := { x := 0, y := 0 } },
               { attrs := [20], geom := { x := 10, y := 0 } } ]
    crs := "EPSG:4326" }

def demoProjectNoField : QgsProject := [demoStopsNoField, demoNetwork]

/-- A stops layer holding a single stop. -/
def demoOneStop : QgsVectorLayer :=
  { name := "my_stops_points"
    fields := ["stop_label", "order_id"]
    feats := [ { attrs := [10, 1], geom := { x := 0, y := 0 } } ]
    crs := "EPSG:4326" }

def demoProjectOneStop : QgsProject := [demoOneStop, demoNetwork]

/-- A nonempty segment list is merged verbatim and published under the fixed
name. -/
theorem mergeAndPublish_ne_nil (segs : List σ) (networkCrs : String) (h : segs ≠ []) :
    mergeAndPublish segs networkCrs
      = some { layers := segs, crs := networkCrs, name := "Multi-Stop Route (from Layer)" } := by
  cases segs with
  | nil => exact absurd rfl h
  | cons a t => rfl

/-! ### Claims -/

/-- C1: for every valid input — an engine that finds a path for every request
and a sorted stop list with `N ≥ 2` stops — the segment-planning loop issues
exactly `N - 1` point-to-point requests, one per consecutive pair in order,
and collects exactly `N - 1` segments in the same order; the requests' start
points are the sorted stops without the last one and their end points the
sorted stops without the first one, so request `i` runs from sorted stop `i`
to sorted stop `i + 1`. -/
theorem planner_issues_consecutive_pair_requests (σ : Type) (f : PathParams → σ)
    (net : QgsVectorLayer) (crs : String) (coords : List QgsPointXY)
    (h2 : 2 ≤ coords.length) :
    (planLoop (okEngine f) net crs coords).1 = consecutiveRequests net crs coords
    ∧ (planLoop (okEngine f) net crs coords).2
        = Except.ok ((consecutiveRequests net crs coords).map f)
    ∧ (consecutiveRequests net crs coords).length = coords.length - 1
    ∧ (consecutiveRequests net crs coords).map PathParams.startPoint
        = coords.dropLast.map (fun p => pointStr p crs)
    ∧ (consecutiveRequests net crs coords).map PathParams.endPoint
        = coords.tail.map (fun p => pointStr p crs) := by
  have h := planLoop_okEngine f net crs coords
  exact ⟨by rw [h], by rw [h], consecutiveRequests_length net crs coords,
    consecutiveRequests_map_start net crs coords,
    consecutiveRequests_map_end net crs coords⟩

/-- C1 witness: the theorem applied to the demo stop list (10,0), (0,0),
(5,5) in the stops CRS. -/
theorem planner_issues_consecutive_pair_requests_witness :
    (planLoop (okEngine PathParams.startPoint) demoNetwork "EPSG:4326" demoCoords).1
        = consecutiveRequests demoNetwork "EPSG:4326" demoCoords
    ∧ (planLoop (okEngine PathParams.startPoint) demoNetwork "EPSG:4326" demoCoords).2
        = Except.ok ((consecutiveRequests demoNetwork "EPSG:4326" demoCoords).map
            PathParams.startPoint)
    ∧ (consecutiveRequests demoNetwork "EPSG:4326" demoCoords).length
        = demoCoords.length - 1
    ∧ (consecutiveRequests demoNetwork "EPSG:4326" demoCoords).map PathParams.startPoint
        = demoCoords.dropLast.map (fun p => pointStr p "EPSG:4326")
    ∧ (consecutiveRequests demoNetwork "EPSG:4326" demoCoords).map PathParams.endPoint
        = demoCoords.tail.map (fun p => pointStr p "EPSG:4326") :=
  planner_issues_consecutive_pair_requests String PathParams.startPoint demoNetwork
    "EPSG:4326" demoCoords (by decide)

/-- C2: if, all earlier stages having succeeded, the path engine fails on the
`k`-th segment request, the run issues only the requests up to and including
index `k` — none of the later ones — and aborts with that error; since the
outcome is `Except.error e` and not `Except.ok (some route)`, no merged route
artifact is ever published to the layer store. -/
theorem path_failure_aborts_run (σ : Type) (engine : PathParams → Except Err σ)
    (project : QgsProject) (cfg : Config) (sl nl : QgsVectorLayer)
    (k : Nat) (pk : PathParams) (e : Err)
    (hs : lookupLayer project cfg.stops_layer_name = Except.ok sl)
    (hn : lookupLayer project cfg.network_layer_name = Except.ok nl)
    (hf : ¬ indexFromName sl.fields cfg.order_field_name = -1)
    (h2 : 2 ≤ sl.feats.length)
    (hok : ((consecutiveRequests nl sl.crs (sortedCoords sl cfg.order_field_name)).take k).all
        (fun p => (engine p).isOk) = true)
    (hk : (consecutiveRequests nl sl.crs (sortedCoords sl cfg.order_field_name))[k]?
        = some pk)
    (he : engine pk = Except.error e) :
    runTrace engine project cfg
      = ((consecutiveRequests nl sl.crs (sortedCoords sl cfg.order_field_name)).take (k + 1),
         Except.error e) := by
  rw [runTrace_eq_planLoop engine project cfg sl nl hs hn hf h2,
    planLoop_fail engine nl sl.crs _ k pk e hok hk he]

/-- C2 witness: on the demo project the engine fails on segment index 1 (the
second segment, out of stop 2); only the two first requests are issued and
the run aborts with that path-not-found error. -/
theorem path_failure_aborts_run_witness :
    runTrace demoFailEngine demoProject demoCfg
      = ((consecutiveRequests demoNetwork demoStops.crs
            (sortedCoords demoStops demoCfg.order_field_name)).take 2,
         Except.error (Err.pathNotFound "between stop 2 and stop 3")) :=
  path_failure_aborts_run String demoFailEngine demoProject demoCfg demoStops demoNetwork
    1 (mkParams demoNetwork "EPSG:4326" { x := 0, y := 0 } { x := 5, y := 5 })
    (Err.pathNotFound "between stop 2 and stop 3")
    (by decide) (by decide) (by decide) (by decide) (by decide) (by decide) (by decide)

/-- C3: the loader's sort orders the stop features ascending by the value of
the configured order field; the result is a permutation of the read order;
and for every key value, the features carrying that value appear in the
sorted sequence in exactly their original relative read order (stability). -/
theorem loader_stable_ascending_sort (sl : QgsVectorLayer) (orderField : String) :
    List.Sorted
        (fun a b => sortKey sl.fields orderField a ≤ sortKey sl.fields orderField b)
        (sortedFeatures sl orderField)
    ∧ (sortedFeatures sl orderField).Perm sl.feats
    ∧ ∀ k : Int,
        (sortedFeatures sl orderField).filter
            (fun f => decide (sortKey sl.fields orderField f = k))
          = sl.feats.filter (fun f => decide (sortKey sl.fields orderField f = k)) := by
  refine ⟨?_, List.perm_insertionSort _ _, fun k => filter_insertionSort_key _ k _⟩
  haveI : IsTotal QgsFeature
      (fun a b => sortKey sl.fields orderField a ≤ sortKey sl.fields orderField b) :=
    ⟨fun a b => Int.le_total _ _⟩
  haveI : IsTrans QgsFeature
      (fun a b => sortKey sl.fields orderField a ≤ sortKey sl.fields orderField b) :=
    ⟨fun a b c hab hbc => le_trans hab hbc⟩
  exact List.sorted_insertionSort _ _

/-- C4: when the configured order field is absent from the stops layer's
schema, the run aborts with the configuration error naming the missing field
and layer; the request trace is empty, so this happens before any path
request — and, the field check preceding the sort in the script, before any
sorting is attempted. -/
theorem missing_order_field_aborts (σ : Type) (engine : PathParams → Except Err σ)
    (project : QgsProject) (cfg : Config) (sl nl : QgsVectorLayer)
    (hs : lookupLayer project cfg.stops_layer_name = Except.ok sl)
    (hn : lookupLayer project cfg.network_layer_name = Except.ok nl)
    (hf : indexFromName sl.fields cfg.order_field_name = -1) :
    runTrace engine project cfg
      = ([], Except.error
          (Err.configurationError cfg.order_field_name cfg.stops_layer_name)) := by
  unfold runTrace
  rw [hs, hn]
  dsimp only
  rw [if_pos hf]

/-- C4 witness: the demo project whose stops layer lacks the `order_id`
field aborts with the configuration error and issues no request. -/
theorem missing_order_field_aborts_witness :
    runTrace demoEngineOk demoProjectNoField demoCfg
      = ([], Except.error (Err.configurationError "order_id" "my_stops_points")) :=
  missing_order_field_aborts String demoEngineOk demoProjectNoField demoCfg
    demoStopsNoField demoNetwork (by decide) (by decide) (by decide)

/-- C5: when fewer than two stops are loaded (zero or one), the run aborts
with the insufficient-stops error and the request trace is empty, so no path
request is ever issued. -/
theorem insufficient_stops_aborts (σ : Type) (engine : PathParams → Except Err σ)
    (project : QgsProject) (cfg : Config) (sl nl : QgsVectorLayer)
    (hs : lookupLayer project cfg.stops_layer_name = Except.ok sl)
    (hn : lookupLayer project cfg.network_layer_name = Except.ok nl)
    (hf : ¬ indexFromName sl.fields cfg.order_field_name = -1)
    (hlen : sl.feats.length < 2) :
    runTrace engine project cfg = ([], Except.error Err.insufficientStops) := by
  unfold runTrace
  rw [hs, hn]
  dsimp only
  rw [if_neg hf, if_pos (by rw [sortedCoords_length]; omega)]

/-- C5 witness: the demo project with a single stop aborts with the
insufficient-stops error and issues no request. -/
theorem insufficient_stops_aborts_witness :
    runTrace demoEngineOk demoProjectOneStop demoCfg
      = ([], Except.error Err.insufficientStops) :=
  insufficient_stops_aborts String demoEngineOk demoProjectOneStop demoCfg
    demoOneStop demoNetwork (by decide) (by decide) (by decide) (by decide)

/-- C6: on a fully successful run the published artifact's `LAYERS` list is
exactly the planner's segment sequence — the engine results for the
consecutive-pair requests, in planner order, with nothing reordered,
deduplicated or dropped — tagged with the network layer's CRS and the fixed
output name. -/
theorem merge_preserves_planner_order (σ : Type) (f : PathParams → σ)
    (project : QgsProject) (cfg : Config) (sl nl : QgsVectorLayer)
    (hs : lookupLayer project cfg.stops_layer_name = Except.ok sl)
    (hn : lookupLayer project cfg.network_layer_name = Except.ok nl)
    (hf : ¬ indexFromName sl.fields cfg.order_field_name = -1)
    (h2 : 2 ≤ sl.feats.length) :
    runTrace (okEngine f) project cfg
      = (consecutiveRequests nl sl.crs (sortedCoords sl cfg.order_field_name),
         Except.ok (some
           { layers := (consecutiveRequests nl sl.crs
                (sortedCoords sl cfg.order_field_name)).map f
             crs := nl.crs
             name := "Multi-Stop Route (from Layer)" })) := by
  have hne : (consecutiveRequests nl sl.crs (sortedCoords sl cfg.order_field_name)).map f
      ≠ [] := by
    intro h
    have hl := congrArg List.length h
    rw [List.length_map, consecutiveRequests_length, sortedCoords_length] at hl
    simp only [List.length_nil] at hl
    omega
  rw [runTrace_eq_planLoop (okEngine f) project cfg sl nl hs hn hf h2,
    planLoop_okEngine f nl sl.crs]
  dsimp only
  rw [mergeAndPublish_ne_nil _ _ hne]

/-- C6 witness: on the demo project the published artifact holds the two
segments, in planner order, with the network CRS and the fixed name. -/
theorem merge_preserves_planner_order_witness :
    runTrace (okEngine PathParams.startPoint) demoProject demoCfg
      = (consecutiveRequests demoNetwork demoStops.crs
            (sortedCoords demoStops demoCfg.order_field_name),
         Except.ok (some
           { layers := (consecutiveRequests demoNetwork demoStops.crs
                (sortedCoords demoStops demoCfg.order_field_name)).map PathParams.startPoint
             crs := demoNetwork.crs
             name := "Multi-Stop Route (from Layer)" })) :=
  merge_preserves_planner_order String PathParams.startPoint demoProject demoCfg
    demoStops demoNetwork (by decide) (by decide) (by decide) (by decide)

/-- C7 counterexample: the claim reads the routing strategy as a recognized
configuration option ranging over Shortest and Fastest, every request using
the configured value.  The script's configuration surface (`Config`, lines
14-21) has no strategy option at all: `STRATEGY` is the hard-coded literal
`1` in the request parameters.  On this concrete run both issued requests
carry strategy `1` — the encoding of `Fastest` per the script's own comment —
and the encoding of `Shortest` (`0`) differs from it, so no issued request
can ever reflect a Shortest choice, contradicting the claim. -/
theorem strategy_option_cex :
    (runTrace demoEngineOk demoProject demoCfg).1.map PathParams.strategy
        = [strategyCode Strategy.Fastest, strategyCode Strategy.Fastest]
    ∧ strategyCode Strategy.Shortest ≠ strategyCode Strategy.Fastest := by
  decide

/-- C7 amended: the routing strategy is not configurable; every request
issued by the planner — for every engine, every project and every
configuration — carries the hard-coded strategy literal `1`, the encoding of
`Fastest`; `Shortest` is never used. -/
theorem strategy_always_fastest (σ : Type) (engine : PathParams → Except Err σ)
    (project : QgsProject) (cfg : Config) (p : PathParams)
    (hp : p ∈ (runTrace engine project cfg).1) :
    p.strategy = strategyCode Strategy.Fastest := by
  obtain ⟨net, crs, a, b, rfl⟩ := mem_runTrace_requests engine project cfg p hp
  rfl

/-- C7 witness: the first request issued on the demo run carries strategy
`1` (`Fastest`). -/
theorem strategy_always_fastest_witness :
    (mkParams demoNetwork "EPSG:4326" { x := 10, y := 0 } { x := 0, y := 0 }).strategy
      = strategyCode Strategy.Fastest :=
  strategy_always_fastest String demoEngineOk demoProject demoCfg
    (mkParams demoNetwork "EPSG:4326" { x := 10, y := 0 } { x := 0, y := 0 }) (by decide)

/-- C8 counterexample: the claim says the merge stage fails with
`EmptyInputError` when the segment sequence is empty.  In the script the
empty case is the `else` branch at lines 131-132, which only prints a
message: the merge stage completes without raising and nothing is published.
The embedded merge stage is accordingly total — on the empty list it returns
`none` (no artifact) rather than any error — and the script's error
vocabulary has no empty-input exception at any raise site. -/
theorem empty_segments_cex : mergeAndPublish ([] : List Nat) "EPSG:32633" = none := rfl

/-- C8 amended: if the segment sequence is empty when the merge stage runs,
the script skips merging and publishing entirely and completes without
error; no artifact is produced. -/
theorem empty_segments_skip_merge (σ : Type) (networkCrs : String) :
    mergeAndPublish ([] : List σ) networkCrs = none := rfl

/-- C9: when several layers in the project registry share the configured
name, the lookup silently selects the first match returned by
`mapLayersByName` and proceeds with it; a name collision is not an error. -/
theorem name_collision_first_match (project : QgsProject) (n : String)
    (l1 l2 : QgsVectorLayer) (rest : List QgsVectorLayer)
    (h : mapLayersByName project n = l1 :: l2 :: rest) :
    lookupLayer project n = Except.ok l1 := by
  unfold lookupLayer
  rw [h]

/-- C9 witness: in a project holding two layers named `my_stops_points`, the
lookup returns the first of them without error. -/
theorem name_collision_first_match_witness :
    lookupLayer demoDupProject "my_stops_points" = Except.ok demoStops :=
  name_collision_first_match demoDupProject "my_stops_points" demoStops demoStopsAlt []
    (by decide)

/-- C10: every request issued by the planner — for every engine, every
project and every configuration — carries the fixed literal "cost" as the
edge-cost attribute (`SPEED_FIELD`); no recognized configuration option
influences it. -/
theorem speed_field_always_cost (σ : Type) (engine : PathParams → Except Err σ)
    (project : QgsProject) (cfg : Config) (p : PathParams)
    (hp : p ∈ (runTrace engine project cfg).1) :
    p.speedField = "cost" := by
  obtain ⟨net, crs, a, b, rfl⟩ := mem_runTrace_requests engine project cfg p hp
  rfl

/-- C10 witness: the second request issued on the demo run carries the cost
attribute literal. -/
theorem speed_field_always_cost_witness :
    (mkParams demoNetwork "EPSG:4326" { x := 0, y := 0 } { x := 5, y := 5 }).speedField
      = "cost" :=
  speed_field_always_cost String demoEngineOk demoProject demoCfg
    (mkParams demoNetwork "EPSG:4326" { x := 0, y := 0 } { x := 5, y := 5 }) (by decide)

end MultiStopRouteCost
